import Mathlib

/-!
Shallow embedding of the SkyBook flight-booking front-end and proofs about it.

Source files embedded:
- `src/unnamed/part_001` : booking-page wizard (state record `bookingState`,
  `initBookingFlow`, `loadSearchData`, `handleSearch`, `searchFlightsAPI`,
  `displayFlights`, `validatePassengerDetails`, `updatePaymentSummary`,
  `handlePayment`, `validatePaymentForm`, `processPayment`, `createBooking`,
  `navigateToStep`, `saveBookingState`, `updateConfirmation`, validators);
- `src/static/js/home.js` : homepage search form (`initFlightSearchForm`
  submit handler, `initPassengerSelector` click handler);
- `src/unnamed/part_002` : alternate homepage script (same validation shape).

Modelling conventions: JavaScript strings are Lean `String`s; the numeric
flight price is modelled as an exact rational (`ℚ`); optional / nullable JS
fields are `Option`s, with the empty-object initialisations of
`passengerData`, `paymentData`, `bookingDetails` also mapped to `none`
(the one place the code distinguishes an empty object from `null` by
truthiness, the guard of `updateConfirmation`, is noted at its definition).
`localStorage` is a `Storage` record; `JSON.stringify`/`JSON.parse` of the
plain string/number records used here is lossless, so a well-formed slot
holds the record itself, while `some none` in the wizard slot stands for a
present-but-unparseable blob (the case where `JSON.parse` throws).
Nondeterministic inputs of the simulated backend (`Date.now()`,
`Math.random()` suffix, the current date) are explicit parameters.
-/

namespace SkyBook

/-- Passenger counts (the `passengers` object of `home.js` and of
`bookingState.searchData.passengers` in `part_001`). -/
structure Passengers where
  adults : Nat
  children : Nat
  infants : Nat
deriving Repr, DecidableEq

/-- Search criteria record. The JS fields `from`/`to` are renamed
`fromCity`/`toCity` (`from` is a Lean keyword). `returnDate` is `none` when
the JS object lacks the field, `some ""` when the field holds the empty
string. `tripType` is present only on records written by the homepage form. -/
structure SearchData where
  fromCity : String
  toCity : String
  departureDate : String
  returnDate : Option String
  tripType : Option String
  passengers : Option Passengers
deriving Repr, DecidableEq

/-- One mocked flight offer, as returned by `searchFlightsAPI` (part_001
lines 429-478). The JS floating-point `price` is modelled as an exact
rational. -/
structure Flight where
  id : String
  airline : String
  flightNumber : String
  departureCity : String
  arrivalCity : String
  departureTime : String
  arrivalTime : String
  departureAirport : String
  arrivalAirport : String
  duration : String
  price : ℚ
  availableSeats : Nat
deriving Repr, DecidableEq

/-- Passenger contact record saved by `validatePassengerDetails`
(part_001 lines 664-670). -/
structure PassengerData where
  name : String
  email : String
  phone : String
  specialRequests : String
deriving Repr, DecidableEq

/-- Payment record saved by `validatePaymentForm` (part_001 lines 790-795):
only the cardholder name, the last four digits and the expiry date. -/
structure PaymentData where
  cardName : String
  cardLastFour : String
  expiryDate : String
deriving Repr, DecidableEq

/-- Booking-creation result (part_001 lines 811-818). `bookingId` is the
`Date.now()` timestamp. -/
structure BookingDetails where
  bookingReference : String
  bookingId : Nat
  timestamp : String
  status : String
deriving Repr, DecidableEq

/-- The wizard session record `bookingState` (part_001 lines 3-10).
`passengerData`, `paymentData` and `bookingDetails` are initialised to empty
objects in the JS; an empty object is modelled as `none`. -/
structure BookingState where
  currentStep : Nat
  searchData : Option SearchData
  selectedFlight : Option Flight
  passengerData : Option PassengerData
  paymentData : Option PaymentData
  bookingDetails : Option BookingDetails
deriving Repr, DecidableEq

/-- The initial `bookingState` literal (part_001 lines 3-10). -/
def initialBookingState : BookingState :=
  { currentStep := 1, searchData := none, selectedFlight := none,
    passengerData := none, paymentData := none, bookingDetails := none }

/-- The two `localStorage` slots the scripts use. `flightSearch` is the
pending-search slot written by the homepage form; `bookingSlot` is the
`bookingState` slot. In `bookingSlot`, `none` means absent, `some none`
means present but unparseable (JSON.parse throws), `some (some s)` means it
parses to the record `s`. -/
structure Storage where
  flightSearch : Option SearchData
  bookingSlot : Option (Option BookingState)
deriving Repr, DecidableEq

/-- The ASCII characters matched by the JS regex class `\s` (and trimmed by
`String.prototype.trim`); the inputs handled here are ASCII, so the extra
Unicode space characters JS also covers never occur in them. -/
def jsSpace (c : Char) : Bool :=
  c = ' ' || c = '\t' || c = '\n' || c = '\r' || c = '\x0b' || c = '\x0c'

/-- JS `str.trim()`: drop whitespace from both ends. -/
def jsTrim (s : String) : String :=
  ⟨((s.data.dropWhile jsSpace).reverse.dropWhile jsSpace).reverse⟩

/-- JS `str.toLowerCase()` on the ASCII inputs used here. -/
def jsToLower (s : String) : String :=
  ⟨s.data.map Char.toLower⟩

/-- JS `str.toUpperCase()` on the ASCII inputs used here. -/
def jsToUpper (s : String) : String :=
  ⟨s.data.map Char.toUpper⟩

/-- Modelled from the spec: the booking-page markup (not under `src/`)
defines one step panel `step-1` .. `step-5` per wizard state
Search(1) .. Confirmation(5); `document.getElementById` finds `step-n`
exactly for `n` in that range. -/
def stepElementExists (step : Nat) : Bool :=
  decide (1 ≤ step) && decide (step ≤ 5)

/-- `saveBookingState` (part_001 lines 944-946): serialize the full session
record into the wizard slot. -/
def saveBookingState (s : BookingState) (st : Storage) : Storage :=
  { st with bookingSlot := some (some s) }

/-- `navigateToStep` (part_001 lines 879-899): if the target step panel
exists, activate it, record the step in the session and persist; otherwise
do nothing. -/
def navigateToStep (step : Nat) (s : BookingState) (st : Storage) :
    BookingState × Storage :=
  if stepElementExists step then
    let s' := { s with currentStep := step }
    (s', saveBookingState s' st)
  else (s, st)

/-- `initBookingFlow` (part_001 lines 30-51): restore the persisted session.
An absent slot does nothing; an unparseable slot throws inside the `try`,
is caught, logged, and leaves the state untouched. A parsed record is
copied field by field: `searchData` only if none is already present,
`currentStep` through a falsy-default (`parsedState.currentStep || 1`,
modelled as `0` defaulting to `1`), the object fields through
`parsedState.x || ` empty-object defaults (identity under the `Option`
model). Finally the code navigates to the restored step. -/
def initBookingFlow (s : BookingState) (st : Storage) :
    BookingState × Storage :=
  match st.bookingSlot with
  | none => (s, st)
  | some none => (s, st)
  | some (some ps) =>
    let s1 : BookingState :=
      { currentStep := if ps.currentStep = 0 then 1 else ps.currentStep,
        searchData := if s.searchData.isNone then ps.searchData else s.searchData,
        selectedFlight := ps.selectedFlight,
        passengerData := ps.passengerData,
        paymentData := ps.paymentData,
        bookingDetails := ps.bookingDetails }
    navigateToStep s1.currentStep s1 st

/-- `loadSearchData` (part_001 lines 53-99): consume the pending-search slot
written by the homepage, copy it into the session, and remove the slot. -/
def loadSearchData (s : BookingState) (st : Storage) :
    BookingState × Storage :=
  match st.flightSearch with
  | none => (s, st)
  | some sd => ({ s with searchData := some sd }, { st with flightSearch := none })

/-! Passenger selector (home.js `initPassengerSelector`, lines 101-205).
The click handler mutates the global `passengers` object. -/

/-- Which passenger counter a `.passenger-btn` targets (`data-type`). -/
inductive PType where
  | adults
  | children
  | infants
deriving Repr, DecidableEq

/-- Which direction a `.passenger-btn` steps (`data-action`). -/
inductive PAction where
  | increase
  | decrease
deriving Repr, DecidableEq

/-- Read one counter of the `passengers` object. -/
def pget : PType → Passengers → Nat
  | .adults, p => p.adults
  | .children, p => p.children
  | .infants, p => p.infants

/-- Write one counter of the `passengers` object. -/
def pset : PType → Nat → Passengers → Passengers
  | .adults, n, p => { p with adults := n }
  | .children, n, p => { p with children := n }
  | .infants, n, p => { p with infants := n }

/-- One click on a homepage passenger button (home.js lines 119-142):
increase is capped at the adult count for infants and at 9 otherwise;
decrease is floored at 1 for adults and at 0 otherwise. -/
def passengerClick (t : PType) (a : PAction) (p : Passengers) : Passengers :=
  match a with
  | .increase =>
    let mx := match t with
      | .infants => p.adults
      | _ => 9
    if pget t p < mx then pset t (pget t p + 1) p else p
  | .decrease =>
    let mn := match t with
      | .adults => 1
      | _ => 0
    if pget t p > mn then pset t (pget t p - 1) p else p

/-- A sequence of clicks, applied left to right. -/
def passengerClicks (ops : List (PType × PAction)) (p : Passengers) : Passengers :=
  ops.foldl (fun q op => passengerClick op.1 op.2 q) p

/-- The homepage initial passenger counts (home.js lines 4-8). -/
def homeInitialPassengers : Passengers := ⟨1, 0, 0⟩

/-! Search-form handling. -/

/-- Inputs of the homepage search form (home.js lines 256-286): the four
text/date fields, the active trip-type option (defaulting to one-way) and
the global passenger counts. -/
structure HomeSearchForm where
  fromCity : String
  toCity : String
  departureDate : String
  returnDate : String
  tripType : String
  passengers : Passengers
deriving Repr, DecidableEq

/-- Validation of the homepage search form (home.js lines 291-323): on
failure an error message; on success the `formData` record that is written
to the pending-search slot (with `returnDate` attached only for
round-trip). -/
def homeSearchValidate (hf : HomeSearchForm) : Except String SearchData :=
  if jsTrim hf.fromCity = "" then .error "Please enter departure city"
  else if jsTrim hf.toCity = "" then .error "Please enter destination city"
  else if jsToLower (jsTrim hf.fromCity) = jsToLower (jsTrim hf.toCity) then
    .error "Departure and destination cities must be different"
  else if hf.departureDate = "" then .error "Please select departure date"
  else if hf.tripType = "round-trip" then
    if hf.returnDate = "" then .error "Please select a return date for round trip"
    else .ok { fromCity := jsTrim hf.fromCity, toCity := jsTrim hf.toCity,
               departureDate := hf.departureDate,
               returnDate := some hf.returnDate,
               tripType := some hf.tripType, passengers := some hf.passengers }
  else .ok { fromCity := jsTrim hf.fromCity, toCity := jsTrim hf.toCity,
             departureDate := hf.departureDate, returnDate := none,
             tripType := some hf.tripType, passengers := some hf.passengers }

/-- Whether an `Except`-valued validation succeeded. -/
def succeeds {α : Type} (e : Except String α) : Bool :=
  match e with
  | .ok _ => true
  | .error _ => false

/-- Inputs of the booking-page search form read by `handleSearch`
(part_001 lines 374-380). There is no trip-type control on this form. -/
structure BookingSearchForm where
  fromCity : String
  toCity : String
  departureDate : String
  returnDate : String
deriving Repr, DecidableEq

/-- `handleSearch` (part_001 lines 370-427), the Search → FlightResults
transition: build the new `searchData` (passenger counts carried over from
the session, defaulting to one adult), validate origin, destination,
distinctness and departure date, and on success store the criteria and
navigate to step 2. Round-trip / return date is never checked here.
Returns (new state, new storage, error message shown if any). -/
def handleSearch (f : BookingSearchForm) (s : BookingState) (st : Storage) :
    BookingState × Storage × Option String :=
  let sd : SearchData :=
    { fromCity := jsTrim f.fromCity, toCity := jsTrim f.toCity,
      departureDate := f.departureDate, returnDate := some f.returnDate,
      tripType := none,
      passengers := some ((s.searchData.bind (fun d => d.passengers)).getD ⟨1, 0, 0⟩) }
  if sd.fromCity = "" then (s, st, some "Please enter departure city")
  else if sd.toCity = "" then (s, st, some "Please enter destination city")
  else if jsToLower sd.fromCity = jsToLower sd.toCity then
    (s, st, some "Departure and destination must be different")
  else if sd.departureDate = "" then (s, st, some "Please select departure date")
  else
    let p := navigateToStep 2 { s with searchData := some sd } st
    (p.1, p.2, none)

/-- Falsy-string default: JS `x || d` on a string. -/
def jsOrStr (x d : String) : String :=
  if x = "" then d else x

/-- `searchFlightsAPI` (part_001 lines 429-478): the mocked search always
returns the same three offers, echoing the searched cities with falsy
defaults `Abuja`/`Lagos`. -/
def searchFlightsAPI (sd : SearchData) : List Flight :=
  [ { id := "SB123", airline := "SkyBook Airlines", flightNumber := "SB123",
      departureCity := jsOrStr sd.fromCity "Abuja",
      arrivalCity := jsOrStr sd.toCity "Lagos",
      departureTime := "08:00", arrivalTime := "09:30",
      departureAirport := "ABV", arrivalAirport := "LOS",
      duration := "1h 30m", price := 199.99, availableSeats := 42 },
    { id := "SB456", airline := "SkyBook Airlines", flightNumber := "SB456",
      departureCity := jsOrStr sd.fromCity "Abuja",
      arrivalCity := jsOrStr sd.toCity "Lagos",
      departureTime := "14:30", arrivalTime := "16:00",
      departureAirport := "ABV", arrivalAirport := "LOS",
      duration := "1h 30m", price := 249.99, availableSeats := 24 },
    { id := "SB789", airline := "SkyBook Airlines", flightNumber := "SB789",
      departureCity := jsOrStr sd.fromCity "Abuja",
      arrivalCity := jsOrStr sd.toCity "Lagos",
      departureTime := "19:15", arrivalTime := "20:45",
      departureAirport := "ABV", arrivalAirport := "LOS",
      duration := "1h 30m", price := 179.99, availableSeats := 3 } ]

/-- The branch condition of `displayFlights` (part_001 line 492) that shows
the `noFlights` element instead of result cards: a missing or empty list. -/
def displayFlightsShowsNoFlights (flights : List Flight) : Bool :=
  flights.isEmpty

/-- Falsy-number default: JS `x || d` on a possibly-missing number. -/
def jsOrNat (x : Option Nat) (d : Nat) : Nat :=
  match x with
  | none => d
  | some n => if n = 0 then d else n

/-- The seat multiplier used for pricing in `displayFlights` (part_001
lines 504-505): `(searchData?.passengers?.adults || 1) +
(searchData?.passengers?.children || 0)`. -/
def displayFlightsSeatCount (s : BookingState) : Nat :=
  jsOrNat ((s.searchData.bind (fun d => d.passengers)).map (fun p => p.adults)) 1 +
  jsOrNat ((s.searchData.bind (fun d => d.passengers)).map (fun p => p.children)) 0

/-- The total price shown on a flight card (part_001 line 506). -/
def displayFlightsTotalPrice (fl : Flight) (s : BookingState) : ℚ :=
  fl.price * (displayFlightsSeatCount s : ℚ)

/-- The seat multiplier of `updatePaymentSummary` (part_001 lines 679-680):
the session's passenger counts with a whole-object default of one adult. -/
def paymentSummarySeatCount (s : BookingState) : Nat :=
  let p := (s.searchData.bind (fun d => d.passengers)).getD ⟨1, 0, 0⟩
  p.adults + p.children

/-- The total price shown in the payment summary (part_001 line 681). -/
def paymentSummaryTotalPrice (fl : Flight) (s : BookingState) : ℚ :=
  fl.price * (paymentSummarySeatCount s : ℚ)

/-! Field validators (part_001 lines 961-994). -/

/-- JS `str.replace(/\s/g, '')`: delete every whitespace character. -/
def stripWs (s : String) : String :=
  ⟨s.data.filter (fun c => !jsSpace c)⟩

/-- The JS regex test `/^\d+$/`: a non-empty all-digit string. -/
def regexAllDigitsPlus (cs : List Char) : Bool :=
  !cs.isEmpty && cs.all Char.isDigit

/-- The JS regex test `/^\d{13,19}$/`: 13 to 19 digits. -/
def regexDigits13to19 (cs : List Char) : Bool :=
  cs.all Char.isDigit && decide (13 ≤ cs.length) && decide (cs.length ≤ 19)

/-- `isValidCardNumber` (part_001 lines 967-974): strip whitespace, reject
unless the result is a non-empty digit string of length 13 to 19, then
confirm with the equivalent 13-to-19-digit regex. -/
def isValidCardNumber (number : String) : Bool :=
  let cleanNumber := stripWs number
  if !regexAllDigitsPlus cleanNumber.data
      || decide (cleanNumber.length < 13) || decide (cleanNumber.length > 19) then
    false
  else
    regexDigits13to19 cleanNumber.data

/-- `isValidExpiryDate` (part_001 lines 976-990), with the wall clock made
explicit: `currentYear` is the two-digit current year, `currentMonth` the
1-based current month. The format test `/^\d{2}\/\d{2}$/` is five
characters, digits around a slash. -/
def isValidExpiryDate (expiry : String) (currentYear currentMonth : Nat) : Bool :=
  match expiry.data with
  | [m1, m2, sep, y1, y2] =>
    if m1.isDigit && m2.isDigit && sep == '/' && y1.isDigit && y2.isDigit then
      let month := (m1.toNat - '0'.toNat) * 10 + (m2.toNat - '0'.toNat)
      let year := (y1.toNat - '0'.toNat) * 10 + (y2.toNat - '0'.toNat)
      if month < 1 ∨ month > 12 then false
      else if year < currentYear then false
      else if year = currentYear ∧ month < currentMonth then false
      else true
    else false
  | _ => false

/-- `isValidCVV` (part_001 lines 992-994): the regex `/^\d{3,4}$/`. -/
def isValidCVV (cvv : String) : Bool :=
  cvv.data.all Char.isDigit && decide (3 ≤ cvv.length) && decide (cvv.length ≤ 4)

/-- `isValidEmail` (part_001 lines 962-965, identically in home.js): the
language of the regex `/^[^\s@]+@[^\s@]+\.[^\s@]+$/` — no whitespace,
exactly one `@` which is not first, and after the `@` a dot with at least
one character on each side. -/
def isValidEmail (email : String) : Bool :=
  let cs := email.data
  let localPart := cs.takeWhile (fun c => c ≠ '@')
  match cs.dropWhile (fun c => c ≠ '@') with
  | '@' :: domain =>
    cs.all (fun c => !jsSpace c) && !localPart.isEmpty &&
    domain.all (fun c => c ≠ '@') && (domain.drop 1).dropLast.contains '.'
  | _ => false

/-! Passenger-details step (part_001 lines 606-673). -/

/-- The passenger-details form fields. -/
structure PassengerForm where
  name : String
  email : String
  phone : String
  specialRequests : String
deriving Repr, DecidableEq

/-- `validatePassengerDetails` (part_001 lines 639-673): on success the
`passengerData` record it saves into the session. -/
def validatePassengerDetails (pf : PassengerForm) : Except String PassengerData :=
  if jsTrim pf.name = "" then .error "Please enter passenger name"
  else if jsTrim pf.email = "" then .error "Please enter email address"
  else if !isValidEmail (jsTrim pf.email) then .error "Please enter a valid email address"
  else if jsTrim pf.phone = "" then .error "Please enter phone number"
  else .ok { name := jsTrim pf.name, email := jsTrim pf.email,
             phone := jsTrim pf.phone, specialRequests := jsTrim pf.specialRequests }

/-- `validatePassengerStep` (part_001 lines 606-612): step 2 → 3 is allowed
only when a flight is selected. -/
def validatePassengerStep (s : BookingState) : Bool :=
  s.selectedFlight.isSome

/-- The `continueToPassengers` click handler (part_001 lines 302-310). -/
def continueToPassengersClick (s : BookingState) (st : Storage) :
    BookingState × Storage × Option String :=
  if validatePassengerStep s then
    let p := navigateToStep 3 s st
    (p.1, p.2, none)
  else (s, st, some "Please select a flight to continue")

/-- The `continueToPayment` click handler (part_001 lines 319-327):
validate the passenger form, save the record, then navigate to step 4. -/
def continueToPaymentClick (pf : PassengerForm) (s : BookingState) (st : Storage) :
    BookingState × Storage × Option String :=
  match validatePassengerDetails pf with
  | .error m => (s, st, some m)
  | .ok pd =>
    let p := navigateToStep 4 { s with passengerData := some pd } st
    (p.1, p.2, none)

/-! Payment and booking creation (part_001 lines 706-819). -/

/-- The payment form fields. -/
structure PaymentForm where
  cardName : String
  cardNumber : String
  cardExpiry : String
  cardCVV : String
deriving Repr, DecidableEq

/-- JS `str.slice(-4)`: the last four characters (the whole string when it
is shorter). -/
def jsSliceLast4 (s : String) : String :=
  ⟨s.data.drop (s.data.length - 4)⟩

/-- `validatePaymentForm` (part_001 lines 749-798): the field checks in
source order; on success the `paymentData` record it saves — cardholder
name, last four digits of the cleaned card number, and expiry only. -/
def validatePaymentForm (pf : PaymentForm) (currentYear currentMonth : Nat) :
    Except String PaymentData :=
  let cardName := jsTrim pf.cardName
  let cardNumber := stripWs (jsTrim pf.cardNumber)
  let cardExpiry := jsTrim pf.cardExpiry
  let cardCVV := jsTrim pf.cardCVV
  if cardName = "" then .error "Please enter cardholder name"
  else if cardNumber = "" then .error "Please enter card number"
  else if !isValidCardNumber cardNumber then .error "Please enter a valid card number"
  else if cardExpiry = "" then .error "Please enter expiry date"
  else if !isValidExpiryDate cardExpiry currentYear currentMonth then
    .error "Please enter a valid expiry date (MM/YY)"
  else if cardCVV = "" then .error "Please enter CVV"
  else if !isValidCVV cardCVV then .error "Please enter a valid CVV"
  else .ok { cardName := cardName, cardLastFour := jsSliceLast4 cardNumber,
             expiryDate := cardExpiry }

/-- Result of the simulated payment call (part_001 line 804). -/
structure PayResult where
  success : Bool
  transactionId : String
deriving Repr, DecidableEq

/-- Environment of the payment step: the `Date.now()` timestamp, the random
reference suffix drawn by `Math.random().toString(36).substr(2, 6)`, the
current ISO timestamp, and the two-digit year / month of the wall clock. -/
structure PaymentEnv where
  ts : Nat
  rand : String
  nowIso : String
  currentYear : Nat
  currentMonth : Nat
deriving Repr, DecidableEq

/-- `processPayment` (part_001 lines 800-805): after the simulated delay the
promise always resolves with success; it never rejects, so the `Except`
error case is never produced. -/
def processPayment (ts : Nat) : Except String PayResult :=
  .ok { success := true, transactionId := "TXN_" ++ toString ts }

/-- `createBooking` (part_001 lines 807-819): always resolves with a
confirmed booking whose reference is `SKB-` followed by the upper-cased
random suffix. -/
def createBooking (ts : Nat) (rand : String) (nowIso : String) :
    Except String BookingDetails :=
  .ok { bookingReference := "SKB-" ++ jsToUpper rand, bookingId := ts,
        timestamp := nowIso, status := "confirmed" }

/-- `handlePayment` (part_001 lines 706-747): validate the payment form
(which saves `paymentData`), run the simulated payment and booking
creation — a rejection of either would land in the catch block that shows
"Payment failed. Please try again." — then record the booking, set step 5,
persist, and navigate to the confirmation step (which persists again). -/
def handlePayment (pf : PaymentForm) (env : PaymentEnv) (s : BookingState)
    (st : Storage) : BookingState × Storage × Option String :=
  match validatePaymentForm pf env.currentYear env.currentMonth with
  | .error msg => (s, st, some msg)
  | .ok pd =>
    let s1 := { s with paymentData := some pd }
    match processPayment env.ts with
    | .error _ => (s1, st, some "Payment failed. Please try again.")
    | .ok _ =>
      match createBooking env.ts env.rand env.nowIso with
      | .error _ => (s1, st, some "Payment failed. Please try again.")
      | .ok bookingResult =>
        let s2 := { s1 with bookingDetails := some bookingResult, currentStep := 5 }
        let st1 := saveBookingState s2 st
        let p := navigateToStep 5 s2 st1
        (p.1, p.2, none)

/-- What `updateConfirmation` (part_001 lines 830-877) writes into the
`bookingReference` element. Its guard tests truthiness of `bookingDetails`,
`selectedFlight` and `passengerData`; `bookingDetails` and `passengerData`
are object-initialised and object-defaulted on restore, hence always truthy
in JS, so the guard reduces to `selectedFlight` being non-null. The
reference is displayed verbatim from the session. -/
def updateConfirmation (s : BookingState) : Option String :=
  if s.selectedFlight.isSome then s.bookingDetails.map (fun b => b.bookingReference)
  else none

/-! Concrete sample inputs used by witnesses and counterexamples. -/

/-- The first mocked offer with the searched cities filled in. -/
def sampleFlight : Flight :=
  { id := "SB123", airline := "SkyBook Airlines", flightNumber := "SB123",
    departureCity := "Abuja", arrivalCity := "Lagos",
    departureTime := "08:00", arrivalTime := "09:30",
    departureAirport := "ABV", arrivalAirport := "LOS",
    duration := "1h 30m", price := 199.99, availableSeats := 42 }

/-- Search criteria for two adults, one child and one infant. -/
def sampleCriteria : SearchData :=
  { fromCity := "Abuja", toCity := "Lagos", departureDate := "2026-11-01",
    returnDate := none, tripType := none, passengers := some ⟨2, 1, 1⟩ }

/-- A session about to pay: flight selected, two adults, one child. -/
def sampleSelectedState : BookingState :=
  { currentStep := 4, searchData := some sampleCriteria,
    selectedFlight := some sampleFlight,
    passengerData := some ⟨"Ada Obi", "ada@example.com", "08012345678", ""⟩,
    paymentData := none, bookingDetails := none }

/-- Round-trip criteria as restored from the homepage slot. -/
def roundTripCriteria : SearchData :=
  { fromCity := "Lagos", toCity := "Abuja", departureDate := "2026-11-01",
    returnDate := some "2026-11-08", tripType := some "round-trip",
    passengers := some ⟨1, 0, 0⟩ }

/-- A wizard session holding a round-trip search. -/
def roundTripSession : BookingState :=
  { initialBookingState with searchData := some roundTripCriteria }

/-- A booking-page search submission with no return date entered. -/
def roundTripForm : BookingSearchForm :=
  { fromCity := "Lagos", toCity := "Abuja", departureDate := "2026-11-05",
    returnDate := "" }

/-- A valid passenger-details form. -/
def samplePassengerForm : PassengerForm :=
  { name := "Ada Obi", email := "ada@example.com", phone := "08012345678",
    specialRequests := "" }

/-- A valid payment form. -/
def samplePaymentForm : PaymentForm :=
  { cardName := "Ada Obi", cardNumber := "4111 1111 1111 1111",
    cardExpiry := "12/30", cardCVV := "123" }

/-- A payment environment: clock at October of two-digit year 26. -/
def samplePaymentEnv : PaymentEnv :=
  { ts := 1734, rand := "x1y2z3", nowIso := "2026-10-12T00:00:00.000Z",
    currentYear := 26, currentMonth := 10 }

/-- A fresh session holding the two-adults-one-child-one-infant search. -/
def sampleSearchState : BookingState :=
  { initialBookingState with searchData := some sampleCriteria }

/-- The payment record saved for `samplePaymentForm`. -/
def samplePaymentData : PaymentData :=
  { cardName := "Ada Obi", cardLastFour := "1111", expiryDate := "12/30" }

/-! Helper lemmas shared by several claims. -/

/-- Stripping whitespace never lengthens a string. -/
theorem stripWs_length_le (s : String) : (stripWs s).length ≤ s.length := by
  show (s.data.filter fun c => !jsSpace c).length ≤ s.data.length
  exact List.length_filter_le _ _

/-- JS `slice(-4)` keeps at most four characters. -/
theorem jsSliceLast4_length_le (s : String) : (jsSliceLast4 s).length ≤ 4 := by
  show (s.data.drop (s.data.length - 4)).length ≤ 4
  rw [List.length_drop]
  omega

/-- Characterization of `isValidCardNumber`: it accepts exactly the strings
that consist, after whitespace stripping, of 13 to 19 decimal digits. -/
theorem isValidCardNumber_iff (n : String) :
    isValidCardNumber n = true ↔
      13 ≤ (stripWs n).length ∧ (stripWs n).length ≤ 19 ∧
      (stripWs n).data.all Char.isDigit = true := by
  unfold isValidCardNumber
  dsimp only
  constructor
  · intro h
    split_ifs at h with hc
    unfold regexDigits13to19 at h
    simp only [Bool.and_eq_true, decide_eq_true_eq] at h
    exact ⟨h.1.2, h.2, h.1.1⟩
  · rintro ⟨h13, h19, hdig⟩
    have hne : ((stripWs n).data.isEmpty) = false := by
      rcases he : (stripWs n).data with _ | ⟨c, cs⟩
      · have hz : (stripWs n).length = 0 := by
          show (stripWs n).data.length = 0
          rw [he]; rfl
        omega
      · rfl
    rw [if_neg]
    · unfold regexDigits13to19
      simp only [Bool.and_eq_true, decide_eq_true_eq]
      exact ⟨⟨hdig, h13⟩, h19⟩
    · simp only [regexAllDigitsPlus, hne, hdig, Bool.not_true, Bool.and_self,
        Bool.not_false, Bool.true_or, Bool.or_eq_true, decide_eq_true_eq,
        Bool.not_eq_true', Bool.false_or]
      omega

/-- Every error message produced by `validatePaymentForm` is one of its own
field messages, never the catch-block message of `handlePayment`. -/
theorem validatePaymentForm_error_ne (pf : PaymentForm) (cy cm : Nat)
    (msg : String)
    (h : validatePaymentForm pf cy cm = .error msg) :
    msg ≠ "Payment failed. Please try again." := by
  unfold validatePaymentForm at h
  dsimp only at h
  split_ifs at h <;> simp_all <;> subst h <;> decide

/-- Shape of the record saved by a successful `validatePaymentForm`: the
trimmed cardholder name, the last four digits of the cleaned number, and
the trimmed expiry — nothing else. -/
theorem validatePaymentForm_ok_shape (pf : PaymentForm) (cy cm : Nat)
    (pd : PaymentData)
    (h : validatePaymentForm pf cy cm = .ok pd) :
    pd = { cardName := jsTrim pf.cardName,
           cardLastFour := jsSliceLast4 (stripWs (jsTrim pf.cardNumber)),
           expiryDate := jsTrim pf.cardExpiry } ∧
    isValidCardNumber (stripWs (jsTrim pf.cardNumber)) = true := by
  unfold validatePaymentForm at h
  dsimp only at h
  split_ifs at h with h1 h2 h3 h4 h5 h6 h7 <;> simp_all

/-! Claim theorems. -/

/-- Claim C1 (counterexample): a booking-page search submission made while
the session holds a round-trip search, submitted with the return-date field
empty, nevertheless succeeds — no error is produced and the wizard moves to
step 2 (FlightResults). The Search → FlightResults transition therefore
does not require a return date for round trips, contrary to the claim. -/
theorem handleSearch_roundTrip_counterexample :
    (roundTripSession.searchData.bind fun d => d.tripType) = some "round-trip" ∧
    roundTripForm.returnDate = "" ∧
    (handleSearch roundTripForm roundTripSession ⟨none, none⟩).2.2 = none ∧
    (handleSearch roundTripForm roundTripSession ⟨none, none⟩).1.currentStep = 2 := by
  refine ⟨rfl, rfl, ?_, ?_⟩ <;> decide

/-- Claim C1 (amended): the booking-page search (the wizard's
Search → FlightResults transition, `handleSearch`) succeeds exactly when
origin and destination are non-empty and case-insensitively distinct and a
departure date is present — it never requires a return date; on success it
moves to step 2 with the criteria recorded, and on any failure it shows an
error and leaves state and storage unchanged. The round-trip/return-date
condition is enforced only by the homepage form's validation. -/
theorem searchGuard_characterization (f : BookingSearchForm) (s : BookingState)
    (st : Storage) (hf : HomeSearchForm) :
    ((handleSearch f s st).2.2 = none ↔
      (jsTrim f.fromCity ≠ "" ∧ jsTrim f.toCity ≠ "" ∧
       jsToLower (jsTrim f.fromCity) ≠ jsToLower (jsTrim f.toCity) ∧
       f.departureDate ≠ "")) ∧
    ((handleSearch f s st).2.2 = none →
      (handleSearch f s st).1.currentStep = 2 ∧
      (handleSearch f s st).1.searchData.isSome = true) ∧
    (∀ m : String, (handleSearch f s st).2.2 = some m →
      (handleSearch f s st).1 = s ∧ (handleSearch f s st).2.1 = st) ∧
    (succeeds (homeSearchValidate hf) = true ↔
      (jsTrim hf.fromCity ≠ "" ∧ jsTrim hf.toCity ≠ "" ∧
       jsToLower (jsTrim hf.fromCity) ≠ jsToLower (jsTrim hf.toCity) ∧
       hf.departureDate ≠ "" ∧
       (hf.tripType = "round-trip" → hf.returnDate ≠ ""))) := by
  unfold handleSearch homeSearchValidate succeeds navigateToStep stepElementExists
  dsimp only
  split_ifs <;> simp_all

/-- Claim C1 (witness): a concrete successful booking-page search reaches
step 2, and a concrete failing one (empty origin) leaves the state as it
was. -/
theorem searchGuard_characterization_witness :
    (handleSearch roundTripForm initialBookingState ⟨none, none⟩).1.currentStep = 2 ∧
    (handleSearch ⟨"", "Lagos", "2026-11-01", ""⟩
      initialBookingState ⟨none, none⟩).1 = initialBookingState :=
  have h1 := searchGuard_characterization roundTripForm initialBookingState
    ⟨none, none⟩ ⟨"A", "B", "d", "r", "one-way", ⟨1, 0, 0⟩⟩
  have h2 := searchGuard_characterization ⟨"", "Lagos", "2026-11-01", ""⟩
    initialBookingState ⟨none, none⟩
    ⟨"A", "B", "d", "r", "one-way", ⟨1, 0, 0⟩⟩
  ⟨(h1.2.1 (by decide)).1,
   (h2.2.2.1 "Please enter departure city" (by decide)).1⟩

/-- Claim C2: both the flight-card rendering and the payment summary price
an offer at the per-seat price times adults plus children — infants are
excluded from the multiplier — and the 199.99 offer with two adults and one
child totals 599.97. -/
theorem totalPrice_multiplier (fl : Flight) (s : BookingState) (p : Passengers)
    (hp : (s.searchData.bind fun d => d.passengers) = some p)
    (ha : 1 ≤ p.adults) :
    displayFlightsTotalPrice fl s = fl.price * ((p.adults + p.children : Nat) : ℚ) ∧
    paymentSummaryTotalPrice fl s = fl.price * ((p.adults + p.children : Nat) : ℚ) ∧
    displayFlightsTotalPrice sampleFlight sampleSearchState = (599.97 : ℚ) := by
  refine ⟨?_, ?_, ?_⟩
  · unfold displayFlightsTotalPrice displayFlightsSeatCount
    rw [hp]
    simp only [Option.map_some', jsOrNat]
    rw [if_neg (by omega : ¬ p.adults = 0)]
    have hch : (if p.children = 0 then (0 : Nat) else p.children) = p.children := by
      split_ifs with hc
      · omega
      · rfl
    rw [hch]
  · unfold paymentSummaryTotalPrice paymentSummarySeatCount
    rw [hp]
    rfl
  · norm_num [displayFlightsTotalPrice, displayFlightsSeatCount, sampleFlight,
      sampleSearchState, sampleCriteria, jsOrNat, initialBookingState]

/-- Claim C2 (witness): the pricing formula evaluated on the sample session
with two adults, one child and one infant. -/
theorem totalPrice_multiplier_witness :
    displayFlightsTotalPrice sampleFlight sampleSearchState =
      sampleFlight.price * (((2 : Nat) + (1 : Nat) : Nat) : ℚ) ∧
    paymentSummaryTotalPrice sampleFlight sampleSearchState =
      sampleFlight.price * (((2 : Nat) + (1 : Nat) : Nat) : ℚ) :=
  have h := totalPrice_multiplier sampleFlight sampleSearchState ⟨2, 1, 1⟩ rfl
    (by decide)
  ⟨h.1, h.2.1⟩

/-- Claim C3 (counterexample): after a successful booking creation neither
storage slot is cleared — the wizard-session slot is overwritten with the
full final session, and a pending-search slot still present in storage is
left untouched. -/
theorem handlePayment_persistsSession_counterexample :
    (handlePayment samplePaymentForm samplePaymentEnv initialBookingState
      ⟨some sampleCriteria, none⟩).2.2 = none ∧
    (handlePayment samplePaymentForm samplePaymentEnv initialBookingState
      ⟨some sampleCriteria, none⟩).2.1.bookingSlot =
      some (some (handlePayment samplePaymentForm samplePaymentEnv
        initialBookingState ⟨some sampleCriteria, none⟩).1) ∧
    (handlePayment samplePaymentForm samplePaymentEnv initialBookingState
      ⟨some sampleCriteria, none⟩).2.1.flightSearch = some sampleCriteria := by
  refine ⟨?_, ?_, ?_⟩ <;> decide

/-- Claim C3 (amended): a successful booking creation (payment form valid)
shows no error, moves the wizard to step 5 (Confirmation) and displays the
returned booking reference verbatim; but instead of being cleared, the
wizard-session slot is overwritten with the full final session. The
pending-search slot is cleared by `loadSearchData` when the booking page
loads, not at booking success. -/
theorem handlePayment_confirmation (pf : PaymentForm) (env : PaymentEnv)
    (s : BookingState) (st : Storage) (pd : PaymentData)
    (hv : validatePaymentForm pf env.currentYear env.currentMonth = .ok pd)
    (hfl : s.selectedFlight.isSome = true) :
    (handlePayment pf env s st).2.2 = none ∧
    (handlePayment pf env s st).1.currentStep = 5 ∧
    updateConfirmation (handlePayment pf env s st).1 =
      some ("SKB-" ++ jsToUpper env.rand) ∧
    (handlePayment pf env s st).2.1.bookingSlot =
      some (some (handlePayment pf env s st).1) ∧
    (∀ (s' : BookingState) (st' : Storage) (sd : SearchData),
      st'.flightSearch = some sd → ((loadSearchData s' st').2).flightSearch = none) := by
  unfold handlePayment
  rw [hv]
  refine ⟨?_, ?_, ?_, ?_, ?_⟩
  · simp [processPayment, createBooking, navigateToStep, stepElementExists,
      saveBookingState]
  · simp [processPayment, createBooking, navigateToStep, stepElementExists,
      saveBookingState]
  · simp [processPayment, createBooking, navigateToStep, stepElementExists,
      saveBookingState, updateConfirmation, hfl]
  · simp [processPayment, createBooking, navigateToStep, stepElementExists,
      saveBookingState]
  · intro s' st' sd hsd
    unfold loadSearchData
    rw [hsd]

/-- Claim C3 (witness): the confirmation behaviour at the sample session
and payment form. -/
theorem handlePayment_confirmation_witness :
    (handlePayment samplePaymentForm samplePaymentEnv sampleSelectedState
      ⟨none, none⟩).1.currentStep = 5 ∧
    updateConfirmation (handlePayment samplePaymentForm samplePaymentEnv
      sampleSelectedState ⟨none, none⟩).1 = some "SKB-X1Y2Z3" :=
  have h := handlePayment_confirmation samplePaymentForm samplePaymentEnv
    sampleSelectedState ⟨none, none⟩ samplePaymentData (by rfl) (by rfl)
  ⟨h.2.1, h.2.2.1⟩

/-- Claim C4 (counterexample): from the homepage initial counts, the click
sequence increase-adults, increase-infants, increase-infants,
decrease-adults is permitted and ends with one adult and two infants — so
decreasing adults breaks the infants-at-most-adults invariant in a
reachable state. -/
theorem passengerClicks_decreaseAdults_counterexample :
    (passengerClicks
      [(PType.adults, PAction.increase), (PType.infants, PAction.increase),
       (PType.infants, PAction.increase), (PType.adults, PAction.decrease)]
      homeInitialPassengers).adults = 1 ∧
    (passengerClicks
      [(PType.adults, PAction.increase), (PType.infants, PAction.increase),
       (PType.infants, PAction.increase), (PType.adults, PAction.decrease)]
      homeInitialPassengers).infants = 2 ∧
    ¬ ((passengerClicks
      [(PType.adults, PAction.increase), (PType.infants, PAction.increase),
       (PType.infants, PAction.increase), (PType.adults, PAction.decrease)]
      homeInitialPassengers).infants ≤
      (passengerClicks
      [(PType.adults, PAction.increase), (PType.infants, PAction.increase),
       (PType.infants, PAction.increase), (PType.adults, PAction.decrease)]
      homeInitialPassengers).adults) := by
  refine ⟨?_, ?_, ?_⟩ <;> decide

/-- Claim C4 (amended): an attempt to increase infants at or beyond the
adult count is a silent no-op, and the invariant infants ≤ adults (with at
least one adult) is preserved by every passenger click except decreasing
adults, which may drop the adult count below the infant count. -/
theorem passengerInvariant_preservation (p : Passengers) (t : PType)
    (a : PAction) (hinv : p.infants ≤ p.adults) (had : 1 ≤ p.adults) :
    (¬ (t = PType.adults ∧ a = PAction.decrease) →
      (passengerClick t a p).infants ≤ (passengerClick t a p).adults) ∧
    (p.adults ≤ p.infants → passengerClick PType.infants PAction.increase p = p) ∧
    1 ≤ (passengerClick t a p).adults := by
  refine ⟨?_, ?_, ?_⟩
  · intro hne
    cases t <;> cases a <;>
      simp_all [passengerClick, pget, pset] <;> split_ifs <;> simp_all <;> omega
  · intro hle
    unfold passengerClick pget
    dsimp only
    rw [if_neg (by omega : ¬ p.infants < p.adults)]
  · cases t <;> cases a <;>
      simp [passengerClick, pget, pset] <;> split_ifs <;> simp_all <;> omega

/-- Claim C4 (witness): with two adults and two infants, another infant
click changes nothing, and a child click keeps the invariant. -/
theorem passengerInvariant_preservation_witness :
    passengerClick PType.infants PAction.increase ⟨2, 0, 2⟩ = ⟨2, 0, 2⟩ ∧
    (passengerClick PType.children PAction.increase ⟨2, 0, 2⟩).infants ≤
      (passengerClick PType.children PAction.increase ⟨2, 0, 2⟩).adults :=
  have h1 := passengerInvariant_preservation ⟨2, 0, 2⟩ PType.infants
    PAction.increase (by decide) (by decide)
  have h2 := passengerInvariant_preservation ⟨2, 0, 2⟩ PType.children
    PAction.increase (by decide) (by decide)
  ⟨h1.2.1 (by decide), h2.1 (by decide)⟩

/-- Claim C5 (counterexample): restoring a persisted record with
currentStep 4 and no passenger data puts the wizard at step 4 without
passenger data, and restoring one with currentStep 9 leaves a step outside
1..5 — the restore path validates nothing. -/
theorem restore_unvalidatedStep_counterexample :
    ((initBookingFlow initialBookingState
      ⟨none, some (some ⟨4, none, none, none, none, none⟩)⟩).1).currentStep = 4 ∧
    ((initBookingFlow initialBookingState
      ⟨none, some (some ⟨4, none, none, none, none, none⟩)⟩).1).passengerData = none ∧
    ((initBookingFlow initialBookingState
      ⟨none, some (some ⟨9, none, none, none, none, none⟩)⟩).1).currentStep = 9 ∧
    ¬ (((initBookingFlow initialBookingState
      ⟨none, some (some ⟨9, none, none, none, none, none⟩)⟩).1).currentStep ≤ 5) := by
  refine ⟨?_, ?_, ?_, ?_⟩ <;> decide

/-- Claim C5 (amended): the guarded forward transitions do respect the
invariant — the wizard reaches step 3 only with a flight selected and
step 4 only by saving validated passenger data — but a state restored from
the persisted slot is taken verbatim: its step is not checked against the
data present or against the range 1..5 (only a falsy step defaults to 1). -/
theorem stepTransition_guards (s : BookingState) (pf : PassengerForm)
    (st : Storage) :
    (s.selectedFlight = none →
      continueToPassengersClick s st = (s, st, some "Please select a flight to continue")) ∧
    (s.selectedFlight.isSome = true →
      (continueToPassengersClick s st).1.currentStep = 3) ∧
    (∀ pd : PassengerData, validatePassengerDetails pf = .ok pd →
      (continueToPaymentClick pf s st).1.passengerData = some pd ∧
      (continueToPaymentClick pf s st).1.currentStep = 4) ∧
    (∀ m : String, validatePassengerDetails pf = .error m →
      continueToPaymentClick pf s st = (s, st, some m)) ∧
    (∀ ps : BookingState, ps.currentStep ≠ 0 →
      ((initBookingFlow initialBookingState
        { st with bookingSlot := some (some ps) }).1).currentStep = ps.currentStep) := by
  refine ⟨?_, ?_, ?_, ?_, ?_⟩
  · intro h
    unfold continueToPassengersClick validatePassengerStep
    rw [h]
    rfl
  · intro h
    unfold continueToPassengersClick validatePassengerStep
    rw [h]
    simp [navigateToStep, stepElementExists]
  · intro pd hv
    unfold continueToPaymentClick
    rw [hv]
    simp [navigateToStep, stepElementExists]
  · intro m hv
    unfold continueToPaymentClick
    rw [hv]
  · intro ps hps
    unfold initBookingFlow
    dsimp only
    rw [if_neg hps]
    unfold navigateToStep
    split_ifs <;> rfl

/-- Claim C5 (witness): the guards evaluated on a session with a selected
flight and on a valid passenger form; the restore conjunct evaluated on the
same session. -/
theorem stepTransition_guards_witness :
    (continueToPassengersClick sampleSelectedState ⟨none, none⟩).1.currentStep = 3 ∧
    (continueToPaymentClick samplePassengerForm sampleSelectedState
      ⟨none, none⟩).1.currentStep = 4 ∧
    ((initBookingFlow initialBookingState
      { flightSearch := none, bookingSlot := some (some sampleSelectedState) }).1).currentStep =
      sampleSelectedState.currentStep :=
  have h := stepTransition_guards sampleSelectedState samplePassengerForm
    ⟨none, none⟩
  ⟨h.2.1 (by rfl),
   (h.2.2.1 ⟨"Ada Obi", "ada@example.com", "08012345678", ""⟩ (by rfl)).2,
   h.2.2.2.2 sampleSelectedState (by decide)⟩

/-- Claim C6: persisting a session record with the program's own
`saveBookingState` and restoring it with `initBookingFlow` on a fresh page
load reproduces the record exactly (for any record whose step is non-falsy,
as every record the wizard writes is); and the payment record saved by a
successful `validatePaymentForm` holds exactly the cardholder name, the
last four digits and the expiry — the stored digits are at most four, so
the raw card number (at least thirteen digits) is never stored, and no CVV
field exists in the persisted shape. -/
theorem session_roundtrip_and_redaction (s : BookingState) (st : Storage)
    (pf : PaymentForm) (cy cm : Nat) (pd : PaymentData)
    (hstep : s.currentStep ≠ 0) :
    (initBookingFlow initialBookingState (saveBookingState s st)).1 = s ∧
    (validatePaymentForm pf cy cm = .ok pd →
      pd = { cardName := jsTrim pf.cardName,
             cardLastFour := jsSliceLast4 (stripWs (jsTrim pf.cardNumber)),
             expiryDate := jsTrim pf.cardExpiry } ∧
      pd.cardLastFour.length ≤ 4 ∧
      pd.cardLastFour ≠ stripWs (jsTrim pf.cardNumber)) := by
  constructor
  · unfold initBookingFlow saveBookingState
    dsimp only
    rw [if_neg hstep]
    simp only [initialBookingState, Option.isNone_none, if_true]
    unfold navigateToStep
    split_ifs <;> rfl
  · intro hv
    obtain ⟨hshape, hcard⟩ := validatePaymentForm_ok_shape pf cy cm pd hv
    have h13 := ((isValidCardNumber_iff _).mp hcard).1
    have hmono := stripWs_length_le (stripWs (jsTrim pf.cardNumber))
    have hlast := jsSliceLast4_length_le (stripWs (jsTrim pf.cardNumber))
    subst hshape
    refine ⟨rfl, hlast, ?_⟩
    intro heq
    have hl := congrArg String.length heq
    dsimp only at hl
    omega

/-- Claim C6 (witness): the round trip and the redacted payment record
evaluated on the sample session and the sample payment form. -/
theorem session_roundtrip_and_redaction_witness :
    (initBookingFlow initialBookingState
      (saveBookingState sampleSelectedState ⟨none, none⟩)).1 = sampleSelectedState ∧
    samplePaymentData.cardLastFour ≠ stripWs (jsTrim samplePaymentForm.cardNumber) :=
  have h := session_roundtrip_and_redaction sampleSelectedState ⟨none, none⟩
    samplePaymentForm 26 10 samplePaymentData (by decide)
  ⟨h.1, (h.2 (by rfl)).2.2⟩

/-- Claim C7: when the persisted wizard slot holds data that fails to
deserialize, the restore performed on page load does not throw — the parse
error is caught — and the controller keeps the fresh initial session at
step 1, with the storage untouched. -/
theorem corrupt_restore_resets (st : Storage)
    (hc : st.bookingSlot = some none) :
    initBookingFlow initialBookingState st = (initialBookingState, st) ∧
    initialBookingState.currentStep = 1 := by
  unfold initBookingFlow
  rw [hc]
  exact ⟨rfl, rfl⟩

/-- Claim C7 (witness): a storage whose wizard slot is an unparseable blob
restores to the fresh initial session. -/
theorem corrupt_restore_resets_witness :
    initBookingFlow initialBookingState ⟨none, some none⟩ =
      (initialBookingState, ⟨none, some none⟩) ∧
    initialBookingState.currentStep = 1 :=
  corrupt_restore_resets ⟨none, some none⟩ rfl

/-- Claim C8 (counterexample): hyphens are not whitespace, so the card
number 4111-1111-1111-1111 survives whitespace stripping unchanged and is
rejected by `isValidCardNumber`, not accepted as the claim's example
states. -/
theorem cardNumber_hyphen_counterexample :
    stripWs "4111-1111-1111-1111" = "4111-1111-1111-1111" ∧
    isValidCardNumber "4111-1111-1111-1111" = false := by
  refine ⟨?_, ?_⟩ <;> decide

/-- Claim C8 (amended): `isValidCardNumber` accepts a string exactly when,
after stripping whitespace, it consists of 13 to 19 decimal digits; in
particular the space-separated 4111 1111 1111 1111 is accepted (16 digits)
and 123 is rejected, while the hyphen-separated form is rejected because
hyphens are not whitespace. -/
theorem isValidCardNumber_characterization (n : String) :
    (isValidCardNumber n = true ↔
      13 ≤ (stripWs n).length ∧ (stripWs n).length ≤ 19 ∧
      (stripWs n).data.all Char.isDigit = true) ∧
    isValidCardNumber "4111 1111 1111 1111" = true ∧
    isValidCardNumber "123" = false :=
  ⟨isValidCardNumber_iff n, by decide, by decide⟩

/-- Claim C8 (witness): the characterization applied to the accepted
space-separated sample number. -/
theorem isValidCardNumber_characterization_witness :
    isValidCardNumber "4111 1111 1111 1111" = true ∧
    13 ≤ (stripWs "4111 1111 1111 1111").length :=
  ⟨(isValidCardNumber_characterization "4111 1111 1111 1111").2.1,
   (((isValidCardNumber_characterization "4111 1111 1111 1111").1).mp
     (isValidCardNumber_characterization "4111 1111 1111 1111").2.1).1⟩

/-- Claim C9: the simulated backend always succeeds — `processPayment`
always resolves with success true, `createBooking` always resolves with a
confirmed booking whose reference is SKB- followed by the upper-cased
random suffix — and consequently `handlePayment` can never show the
catch-block message "Payment failed. Please try again.": its only error
outputs are the field-validation messages. -/
theorem simulatedPayment_alwaysSucceeds (env : PaymentEnv) (pf : PaymentForm)
    (s : BookingState) (st : Storage) :
    processPayment env.ts =
      .ok { success := true, transactionId := "TXN_" ++ toString env.ts } ∧
    createBooking env.ts env.rand env.nowIso =
      .ok { bookingReference := "SKB-" ++ jsToUpper env.rand,
            bookingId := env.ts, timestamp := env.nowIso,
            status := "confirmed" } ∧
    (handlePayment pf env s st).2.2 ≠ some "Payment failed. Please try again." := by
  refine ⟨rfl, rfl, ?_⟩
  unfold handlePayment
  cases hv : validatePaymentForm pf env.currentYear env.currentMonth with
  | error msg =>
    dsimp only
    intro hc
    exact validatePaymentForm_error_ne pf env.currentYear env.currentMonth msg hv
      (Option.some.inj hc)
  | ok pd =>
    dsimp only [processPayment, createBooking]
    simp

/-- Claim C9 (witness): `handlePayment` on the sample inputs does not
produce the payment-failed message. -/
theorem simulatedPayment_alwaysSucceeds_witness :
    (handlePayment samplePaymentForm samplePaymentEnv sampleSelectedState
      ⟨none, none⟩).2.2 ≠ some "Payment failed. Please try again." :=
  (simulatedPayment_alwaysSucceeds samplePaymentEnv samplePaymentForm
    sampleSelectedState ⟨none, none⟩).2.2

/-- Claim C10: the mocked search returns exactly three offers for every
input, every offer echoes the searched cities (with `Abuja`/`Lagos` as the
falsy defaults for empty fields), and the resulting list is never the empty
list that would trigger the no-flights display path of `displayFlights`. -/
theorem searchFlightsAPI_threeOffers (sd : SearchData) :
    (searchFlightsAPI sd).length = 3 ∧
    ((searchFlightsAPI sd).all fun fl =>
      fl.departureCity == jsOrStr sd.fromCity "Abuja" &&
      fl.arrivalCity == jsOrStr sd.toCity "Lagos") = true ∧
    jsOrStr sd.fromCity "Abuja" = (if sd.fromCity = "" then "Abuja" else sd.fromCity) ∧
    jsOrStr sd.toCity "Lagos" = (if sd.toCity = "" then "Lagos" else sd.toCity) ∧
    displayFlightsShowsNoFlights (searchFlightsAPI sd) = false := by
  refine ⟨rfl, ?_, rfl, rfl, rfl⟩
  simp [searchFlightsAPI, List.all]

/-- Claim C10 (witness): the offer count and city echo evaluated on the
sample criteria. -/
theorem searchFlightsAPI_threeOffers_witness :
    (searchFlightsAPI sampleCriteria).length = 3 ∧
    displayFlightsShowsNoFlights (searchFlightsAPI sampleCriteria) = false :=
  ⟨(searchFlightsAPI_threeOffers sampleCriteria).1,
   (searchFlightsAPI_threeOffers sampleCriteria).2.2.2.2⟩

end SkyBook
